import Mathlib

/-!
Verification of the rhythm-game judging/scoring engine
(`src/sondream/stream/rhythm_game_logic.py` and
`src/sondream/stream/consumers.py`).

Modelling conventions:
* Python floats are modelled as exact rationals (`ℚ`); Python ints as `ℤ`.
* Python's float exponentiation `x ** p` (used only for the combo-growth
  bonus) is an abstract parameter `powf : ℚ → ℚ → ℚ`, universally
  quantified in the theorems, with the facts a given theorem needs about
  it (such as `powf 1 1.2 = 1`, true of the source's arithmetic) taken as
  hypotheses. `**` is itself partial: a negative base with a fractional
  exponent yields a complex number (so the `min` applied next raises
  `TypeError`), and `0 ** negative` raises `ZeroDivisionError`. Where
  that matters (totality), `pyPow`/`process_note_result_checked` keep
  those raise paths, `float_pow_defined` being `**`'s real domain.
* Python's division raises `ZeroDivisionError` on a zero divisor, so the
  one unguarded division (`get_excess_ratio`) returns `Option`; the raise
  propagates through `calculate_base_score` and `process_note_result` as
  `none`.
* `round(x, 1)` is round-half-to-even at one decimal (`pyRound1`).
* The websocket consumer is modelled as a pure step function `receive`
  on a `Session`, with `time.time()*1000` passed in as `now` and the
  outgoing JSON messages collected in a list.
-/

namespace Sondream

/-- Judgement variants (rhythm_game_logic.py lines 10-15). -/
inductive Judgement where
  | PERFECT
  | GREAT
  | GOOD
  | BAD
  | MISS
deriving DecidableEq, Repr

/-- Note type variants (rhythm_game_logic.py lines 17-19). -/
inductive NoteType where
  | TAP
  | HOLD
deriving DecidableEq, Repr

/-- TimingConfig (rhythm_game_logic.py lines 25-29). -/
structure TimingConfig where
  window_perfect : ℚ := 416
  excess_max : ℚ := 416
  cut_great : ℚ := 50
deriving DecidableEq, Repr

/-- ComboConfig (rhythm_game_logic.py lines 31-35). -/
structure ComboConfig where
  growth_a : ℚ := 1/100
  growth_p : ℚ := 6/5
  bonus_cap_multiplier : ℚ := 2
deriving DecidableEq, Repr

/-- FeverConfig (rhythm_game_logic.py lines 37-47). -/
structure FeverConfig where
  fill_perfect : ℤ := 10
  fill_great : ℤ := 5
  fill_good : ℤ := 2
  fill_bad : ℤ := 0
  fill_miss : ℤ := 0
  gauge_max : ℤ := 100
  fever_duration_notes : ℤ := 10
  score_multiplier : ℚ := 2
deriving DecidableEq, Repr

/-- SpatialConfig (rhythm_game_logic.py lines 49-51). -/
structure SpatialConfig where
  target_radius : ℚ := 100
deriving DecidableEq, Repr

/-- NoteEvent (rhythm_game_logic.py lines 57-67). -/
structure NoteEvent where
  note_type : NoteType
  target_start : ℚ
  target_x : ℚ
  target_y : ℚ
  actual_entry : ℚ
  min_dist : ℚ
  target_end : ℚ := 0
  actual_exit : ℚ := 0
deriving DecidableEq, Repr

/-- PlayState (rhythm_game_logic.py lines 69-76). -/
structure PlayState where
  total_score : ℚ := 0
  max_possible_score : ℚ := 0
  current_combo : ℤ := 0
  max_combo : ℤ := 0
  fever_gauge : ℤ := 0
  fever_active_notes : ℤ := 0
deriving DecidableEq, Repr

/-- PlayState.is_fever_active (rhythm_game_logic.py lines 78-79). -/
def PlayState.is_fever_active (s : PlayState) : Bool :=
  s.fever_active_notes > 0

/-- calc_excess (rhythm_game_logic.py lines 85-89). -/
def calc_excess (diff_ms window : ℚ) : ℚ :=
  let abs_diff := |diff_ms|
  if abs_diff > window then abs_diff - window else 0

/-- get_excess_ratio (rhythm_game_logic.py lines 91-92). Python raises
`ZeroDivisionError` when `max_excess` is zero, modelled as `none`. -/
def get_excess_ratio (excess_ms max_excess : ℚ) : Option ℚ :=
  if max_excess = 0 then none else some (min (excess_ms / max_excess) 1)

/-- calculate_base_score (rhythm_game_logic.py lines 98-128); `none`
models the `ZeroDivisionError` escaping from `get_excess_ratio`. -/
def calculate_base_score (note : NoteEvent) (t_cfg : TimingConfig)
    (s_cfg : SpatialConfig) : Option (ℚ × Judgement) :=
  if note.actual_entry = -1 then
    some (0, Judgement.MISS)
  else if note.min_dist > s_cfg.target_radius then
    some (0, Judgement.BAD)
  else
    let diff := note.actual_entry - note.target_start
    let abs_diff := |diff|
    let W := t_cfg.window_perfect
    if abs_diff ≤ W then
      some (100, Judgement.PERFECT)
    else
      let excess := abs_diff - W
      match get_excess_ratio excess t_cfg.excess_max with
      | none => none
      | some penalty_ratio =>
        if penalty_ratio ≥ 1 then
          some (0, Judgement.BAD)
        else
          let score := 100 * (1 - penalty_ratio)
          if score ≤ 0 then
            some (0, Judgement.BAD)
          else if score ≥ t_cfg.cut_great then
            some (score, Judgement.GREAT)
          else
            some (score, Judgement.GOOD)

/-- The fever fill dictionary lookup (rhythm_game_logic.py lines 164-170). -/
def fill_amount (f_cfg : FeverConfig) (j : Judgement) : ℤ :=
  match j with
  | Judgement.PERFECT => f_cfg.fill_perfect
  | Judgement.GREAT => f_cfg.fill_great
  | Judgement.GOOD => f_cfg.fill_good
  | Judgement.BAD => f_cfg.fill_bad
  | Judgement.MISS => f_cfg.fill_miss

/-- Round half to even, the rounding Python's `round` uses on exact values. -/
def roundHalfEven (x : ℚ) : ℤ :=
  let n := Int.floor x
  let frac := x - n
  if frac < 1/2 then n
  else if frac > 1/2 then n + 1
  else if n % 2 = 0 then n else n + 1

/-- Python's `round(x, 1)`: round half to even at one decimal place. -/
def pyRound1 (x : ℚ) : ℚ := (roundHalfEven (10 * x) : ℚ) / 10

/-- The live rank ladder computed at the end of `process_note_result`
(rhythm_game_logic.py lines 190-196). -/
def live_rank (total_score max_possible_score : ℚ) : String :=
  let rank_ratio := if max_possible_score > 0 then total_score / max_possible_score else 0
  if rank_ratio ≥ (9:ℚ)/10 then "S"
  else if rank_ratio ≥ (8:ℚ)/10 then "A"
  else if rank_ratio ≥ (7:ℚ)/10 then "B"
  else if rank_ratio ≥ (6:ℚ)/10 then "C"
  else "F"

/-- The per-note result dictionary (rhythm_game_logic.py lines 197-210);
the `debug_in` display-string field is the signed timing offset, kept as
the raw rational (`none` standing for the "MISS" text). -/
structure NoteResult where
  judgement : Judgement
  base_score : ℚ
  final_score : ℚ
  combo : ℤ
  fever_active : Bool
  fever_gauge : ℤ
  fever_max : ℤ
  fever_active_notes : ℤ
  fever_duration : ℤ
  total_score : ℚ
  rank : String
  debug_in : Option ℚ
deriving DecidableEq, Repr

/-- The body of `process_note_result` after `calculate_base_score` has
produced `(base_score, judgement)` (rhythm_game_logic.py lines 142-210).
The Python function mutates `state` in place; here the updated state is
returned alongside the result record. `powf` stands for float `**`. -/
def process_after (powf : ℚ → ℚ → ℚ) (base_score : ℚ) (judgement : Judgement)
    (state : PlayState) (note : NoteEvent) (c_cfg : ComboConfig)
    (f_cfg : FeverConfig) : PlayState × NoteResult :=
  -- lines 142-160: combo update, combo bonus, fever multiplier
  let afterCombo : PlayState × ℚ :=
    if judgement = Judgement.BAD ∨ judgement = Judgement.MISS then
      ({ state with current_combo := 0 }, 0)
    else
      let s1 := { state with
        current_combo := state.current_combo + 1,
        max_combo := max state.max_combo (state.current_combo + 1) }
      let bonus_ratio := c_cfg.growth_a * powf (s1.current_combo : ℚ) c_cfg.growth_p
      let bonus_score := min (base_score * bonus_ratio) (base_score * c_cfg.bonus_cap_multiplier)
      let current_note_total := base_score + bonus_score
      if s1.is_fever_active then
        ({ s1 with fever_active_notes := s1.fever_active_notes - 1 },
          current_note_total * f_cfg.score_multiplier)
      else
        (s1, current_note_total)
  let s2 := afterCombo.1
  let final_score := afterCombo.2
  -- lines 162-175: fever gauge fill, edge-triggered activation
  let s3 :=
    if !s2.is_fever_active then
      let g := s2.fever_gauge + fill_amount f_cfg judgement
      if g ≥ f_cfg.gauge_max then
        { s2 with fever_gauge := 0, fever_active_notes := f_cfg.fever_duration_notes }
      else
        { s2 with fever_gauge := g }
    else s2
  -- line 177
  let s4 := { s3 with total_score := s3.total_score + final_score }
  -- lines 179-188: theoretical maximum simulation
  let simulated_max_combo : ℤ :=
    if judgement = Judgement.BAD ∨ judgement = Judgement.MISS then s4.max_combo + 1
    else s4.current_combo
  let max_base : ℚ := 100
  let max_bonus_ratio := c_cfg.growth_a * powf (simulated_max_combo : ℚ) c_cfg.growth_p
  let max_bonus_val := min (max_base * max_bonus_ratio) (max_base * c_cfg.bonus_cap_multiplier)
  let mult := if s4.is_fever_active then f_cfg.score_multiplier else 1
  let possible_score := (max_base + max_bonus_val) * mult
  let s5 := { s4 with max_possible_score := s4.max_possible_score + possible_score }
  -- lines 190-210
  (s5,
    { judgement := judgement
      base_score := pyRound1 base_score
      final_score := pyRound1 final_score
      combo := s5.current_combo
      fever_active := s5.is_fever_active
      fever_gauge := s5.fever_gauge
      fever_max := f_cfg.gauge_max
      fever_active_notes := s5.fever_active_notes
      fever_duration := f_cfg.fever_duration_notes
      total_score := pyRound1 s5.total_score
      rank := live_rank s5.total_score s5.max_possible_score
      debug_in :=
        if note.actual_entry ≠ -1 then some (note.actual_entry - note.target_start)
        else none })

/-- process_note_result (rhythm_game_logic.py lines 131-210): judge the
note, then run the stateful update; `none` models the division raise
(a zero `excess_max`), which in Python escapes before any state
mutation. The total `powf` hides the raise paths of `**` itself; those
are kept by `process_note_result_checked` below. -/
def process_note_result (powf : ℚ → ℚ → ℚ) (note : NoteEvent) (state : PlayState)
    (t_cfg : TimingConfig := {}) (s_cfg : SpatialConfig := {})
    (c_cfg : ComboConfig := {}) (f_cfg : FeverConfig := {}) :
    Option (PlayState × NoteResult) :=
  match calculate_base_score note t_cfg s_cfg with
  | none => none
  | some (base_score, judgement) =>
      some (process_after powf base_score judgement state note c_cfg f_cfg)

/-- The domain on which Python's float `**` yields a real (float)
result: a positive base always does; a zero base needs a non-negative
exponent (`0.0 ** negative` raises `ZeroDivisionError`); a negative base
needs an integral exponent — otherwise the result is complex, and the
`min` applied to it next raises `TypeError`. -/
def float_pow_defined (x p : ℚ) : Prop :=
  0 < x ∨ (x = 0 ∧ 0 ≤ p) ∨ (x < 0 ∧ (⌊p⌋ : ℚ) = p)

instance (x p : ℚ) : Decidable (float_pow_defined x p) := by
  unfold float_pow_defined; infer_instance

/-- Python's `x ** p` as a partial operation: `some` of the total
stand-in's value inside `**`'s real domain, `none` (a raise) outside
it. -/
def pyPow (powf : ℚ → ℚ → ℚ) (x p : ℚ) : Option ℚ :=
  if float_pow_defined x p then some (powf x p) else none

/-- `process_after` with the raise paths of `**` kept: each of the two
power sites (rhythm_game_logic.py lines 149 and 182) goes through
`pyPow`, and a raise propagates as `none` (in Python it escapes to the
caller's `except` with the state fields written before that line already
mutated; the `none` stands for the whole call raising). Everything else
is exactly `process_after`. -/
def process_after_checked (powf : ℚ → ℚ → ℚ) (base_score : ℚ) (judgement : Judgement)
    (state : PlayState) (note : NoteEvent) (c_cfg : ComboConfig)
    (f_cfg : FeverConfig) : Option (PlayState × NoteResult) :=
  let afterCombo? : Option (PlayState × ℚ) :=
    if judgement = Judgement.BAD ∨ judgement = Judgement.MISS then
      some ({ state with current_combo := 0 }, 0)
    else
      let s1 := { state with
        current_combo := state.current_combo + 1,
        max_combo := max state.max_combo (state.current_combo + 1) }
      match pyPow powf (s1.current_combo : ℚ) c_cfg.growth_p with
      | none => none
      | some powv =>
        let bonus_ratio := c_cfg.growth_a * powv
        let bonus_score := min (base_score * bonus_ratio) (base_score * c_cfg.bonus_cap_multiplier)
        let current_note_total := base_score + bonus_score
        if s1.is_fever_active then
          some ({ s1 with fever_active_notes := s1.fever_active_notes - 1 },
            current_note_total * f_cfg.score_multiplier)
        else
          some (s1, current_note_total)
  match afterCombo? with
  | none => none
  | some afterCombo =>
    let s2 := afterCombo.1
    let final_score := afterCombo.2
    let s3 :=
      if !s2.is_fever_active then
        let g := s2.fever_gauge + fill_amount f_cfg judgement
        if g ≥ f_cfg.gauge_max then
          { s2 with fever_gauge := 0, fever_active_notes := f_cfg.fever_duration_notes }
        else
          { s2 with fever_gauge := g }
      else s2
    let s4 := { s3 with total_score := s3.total_score + final_score }
    let simulated_max_combo : ℤ :=
      if judgement = Judgement.BAD ∨ judgement = Judgement.MISS then s4.max_combo + 1
      else s4.current_combo
    match pyPow powf (simulated_max_combo : ℚ) c_cfg.growth_p with
    | none => none
    | some powv2 =>
      let max_base : ℚ := 100
      let max_bonus_ratio := c_cfg.growth_a * powv2
      let max_bonus_val := min (max_base * max_bonus_ratio) (max_base * c_cfg.bonus_cap_multiplier)
      let mult := if s4.is_fever_active then f_cfg.score_multiplier else 1
      let possible_score := (max_base + max_bonus_val) * mult
      let s5 := { s4 with max_possible_score := s4.max_possible_score + possible_score }
      some (s5,
        { judgement := judgement
          base_score := pyRound1 base_score
          final_score := pyRound1 final_score
          combo := s5.current_combo
          fever_active := s5.is_fever_active
          fever_gauge := s5.fever_gauge
          fever_max := f_cfg.gauge_max
          fever_active_notes := s5.fever_active_notes
          fever_duration := f_cfg.fever_duration_notes
          total_score := pyRound1 s5.total_score
          rank := live_rank s5.total_score s5.max_possible_score
          debug_in :=
            if note.actual_entry ≠ -1 then some (note.actual_entry - note.target_start)
            else none })

/-- `process_note_result` with every raise path kept: the division raise
of `get_excess_ratio` and the two `**` sites. -/
def process_note_result_checked (powf : ℚ → ℚ → ℚ) (note : NoteEvent)
    (state : PlayState) (t_cfg : TimingConfig := {}) (s_cfg : SpatialConfig := {})
    (c_cfg : ComboConfig := {}) (f_cfg : FeverConfig := {}) :
    Option (PlayState × NoteResult) :=
  match calculate_base_score note t_cfg s_cfg with
  | none => none
  | some (base_score, judgement) =>
      process_after_checked powf base_score judgement state note c_cfg f_cfg

/-! The websocket session coordinator (`src/sondream/stream/consumers.py`),
as a pure step function. -/

/-- NOTE_INTERVALS (consumers.py lines 9-16), in seconds. -/
def NOTE_INTERVALS : List ℚ :=
  [209/1000, 1858/1000, 1835/1000, 1835/1000, 928/1000, 1254/1000, 1347/1000, 1324/1000, 348/1000, 464/1000,
   1022/1000, 1858/1000, 1347/1000, 1161/1000, 1022/1000, 1858/1000, 2508/1000, 1672/1000, 3460/1000, 326/1000,
   2322/1000, 4389/1000, 1254/1000, 1649/1000, 1858/1000, 1347/1000, 928/1000, 2415/1000, 1812/1000, 1857/1000,
   1022/1000, 1857/1000, 1254/1000, 720/1000, 1277/1000, 1138/1000, 1858/1000, 2183/1000, 1138/1000, 1277/1000,
   1138/1000, 1857/1000, 1254/1000, 720/1000, 1277/1000, 3692/1000, 1161/1000, 1602/1000, 1277/1000, 2554/1000,
   1138/1000, 1161/1000, 1649/1000, 1649/1000, 1625/1000, 1161/1000, 1138/1000, 813/1000, 882/1000, 1649/1000]

/-- The per-connection mutable attributes of `RhythmGameConsumer`
(consumers.py lines 24-26). -/
structure Session where
  state : PlayState
  note_index : ℕ
  current_target_time : ℚ
deriving DecidableEq, Repr

/-- Inbound websocket actions (consumers.py lines 62-87): `game_start`;
`gesture_complete` with its optional `entry_time` and `min_dist` fields
(`dict.get` defaults apply when absent); `miss` with an optional
`min_dist`. -/
inductive InMsg where
  | game_start
  | gesture_complete (entry_time : Option ℚ) (min_dist : Option ℚ)
  | miss (min_dist : Option ℚ)
deriving DecidableEq, Repr

/-- Outbound websocket messages (consumers.py); `next_target none` is the
JSON `null` target time. -/
inductive OutMsg where
  | game_start_msg
  | next_target (target_start : Option ℚ)
  | result (data : NoteResult)
  | game_over (total_score max_possible_score : ℚ) (rank : String)
deriving DecidableEq, Repr

/-- get_next_note_time (consumers.py lines 37-47); `now` is
`time.time() * 1000` at the call. -/
def get_next_note_time (now : ℚ) (s : Session) : Session × Option ℚ :=
  match NOTE_INTERVALS.get? s.note_index with
  | some interval =>
    let t :=
      if s.note_index = 0 then now + interval * 1000
      else s.current_target_time + interval * 1000
    ({ s with current_target_time := t }, some t)
  | none => (s, none)

/-- calculate_final_rank (consumers.py lines 49-57). -/
def calculate_final_rank (state : PlayState) : String :=
  if state.max_possible_score ≤ 0 then "F"
  else
    let ratio := state.total_score / state.max_possible_score
    if ratio ≥ (9:ℚ)/10 then "S"
    else if ratio ≥ (8:ℚ)/10 then "A"
    else if ratio ≥ (7:ℚ)/10 then "B"
    else if ratio ≥ (6:ℚ)/10 then "C"
    else "F"

/-- consumers.py lines 82-124, the `gesture_complete`/`miss` handling of
`receive`: build the `NoteEvent` at the current target time, run the
engine, advance the cursor, emit the next target or the game-over
summary. -/
def receiveNoteEvent (powf : ℚ → ℚ → ℚ) (now : ℚ) (sess : Session)
    (actual_entry min_dist : ℚ) : Session × List OutMsg :=
  let note_event : NoteEvent :=
    { note_type := NoteType.TAP
      target_start := sess.current_target_time
      target_x := 100
      target_y := 100
      actual_entry := actual_entry
      min_dist := min_dist }
  match process_note_result powf note_event sess.state {} {} with
  | none => (sess, [])
  | some (state1, result) =>
    let sess1 : Session := { sess with state := state1, note_index := sess.note_index + 1 }
    let (sess2, next_time) := get_next_note_time now sess1
    match next_time with
    | some t =>
      if t = 0 then
        (sess2, [OutMsg.result result,
          OutMsg.game_over (pyRound1 state1.total_score)
            (pyRound1 state1.max_possible_score) (calculate_final_rank state1)])
      else
        (sess2, [OutMsg.result result, OutMsg.next_target (some t)])
    | none =>
      (sess2, [OutMsg.result result,
        OutMsg.game_over (pyRound1 state1.total_score)
          (pyRound1 state1.max_possible_score) (calculate_final_rank state1)])

/-- receive (consumers.py lines 59-127): one inbound message against one
session, returning the updated session and the sent messages, in order.
The `except` clause swallows the only possible engine raise (which in
Python happens before any state mutation), leaving the session unchanged
with nothing sent. Python's `if next_time:` is falsy both for `None` and
for the float `0.0`. -/
def receive (powf : ℚ → ℚ → ℚ) (now : ℚ) (sess : Session) (msg : InMsg) :
    Session × List OutMsg :=
  match msg with
  | InMsg.game_start =>
    let sess1 : Session :=
      { state := {}, note_index := 0, current_target_time := sess.current_target_time }
    let (sess2, next_time) := get_next_note_time now sess1
    (sess2, [OutMsg.game_start_msg, OutMsg.next_target next_time])
  | InMsg.gesture_complete entry_time min_dist =>
    receiveNoteEvent powf now sess (entry_time.getD (-1)) (min_dist.getD 9999)
  | InMsg.miss min_dist =>
    receiveNoteEvent powf now sess (-1) (min_dist.getD 9999)

/-! Concrete instances used to exercise the definitions. -/

/-- A concrete stand-in for float `**`, agreeing with it at the points the
concrete evaluations below reach (`powf 1 p = 1`, as `1.0 ** p == 1.0`). -/
def powf0 : ℚ → ℚ → ℚ := fun x _ => x

/-- An input exactly on target and exactly on time. -/
def noteOnTime : NoteEvent :=
  { note_type := NoteType.TAP, target_start := 0, target_x := 100, target_y := 100,
    actual_entry := 0, min_dist := 0 }

/-- An input on target but 500 ms late (past the 416 ms perfect window). -/
def noteLate : NoteEvent :=
  { note_type := NoteType.TAP, target_start := 0, target_x := 100, target_y := 100,
    actual_entry := 500, min_dist := 0 }

/-- A note with the no-input sentinel entry time. -/
def noteNoInput : NoteEvent :=
  { note_type := NoteType.TAP, target_start := 0, target_x := 100, target_y := 100,
    actual_entry := -1, min_dist := 9999 }

/-- A timing configuration whose penalty denominator is zero. -/
def tCfgZeroExcess : TimingConfig := { excess_max := 0 }

/-- A fresh play state whose fever window has exactly one note left. -/
def stateFeverOne : PlayState := { fever_active_notes := 1 }

/-! Small helper lemmas. -/

theorem is_fever_active_eq (s : PlayState) :
    s.is_fever_active = decide (0 < s.fever_active_notes) := rfl

/-- The result record's rank field is the live rank of the returned
state's totals. -/
theorem process_after_rank_eq (powf : ℚ → ℚ → ℚ) (b : ℚ) (j : Judgement)
    (st : PlayState) (note : NoteEvent) (c_cfg : ComboConfig) (f_cfg : FeverConfig) :
    (process_after powf b j st note c_cfg f_cfg).2.rank
      = live_rank (process_after powf b j st note c_cfg f_cfg).1.total_score
          (process_after powf b j st note c_cfg f_cfg).1.max_possible_score := rfl

/-- The result record's fever-active flag is the returned (post-update)
state's activity. -/
theorem process_after_fever_active_eq (powf : ℚ → ℚ → ℚ) (b : ℚ) (j : Judgement)
    (st : PlayState) (note : NoteEvent) (c_cfg : ComboConfig) (f_cfg : FeverConfig) :
    (process_after powf b j st note c_cfg f_cfg).2.fever_active
      = (process_after powf b j st note c_cfg f_cfg).1.is_fever_active := rfl

/-- The result record's judgement is the one `calculate_base_score`
produced. -/
theorem process_after_judgement_eq (powf : ℚ → ℚ → ℚ) (b : ℚ) (j : Judgement)
    (st : PlayState) (note : NoteEvent) (c_cfg : ComboConfig) (f_cfg : FeverConfig) :
    (process_after powf b j st note c_cfg f_cfg).2.judgement = j := rfl

theorem process_note_result_eq_some (powf : ℚ → ℚ → ℚ) (note : NoteEvent)
    (state : PlayState) (t_cfg : TimingConfig) (s_cfg : SpatialConfig)
    (c_cfg : ComboConfig) (f_cfg : FeverConfig) (s' : PlayState) (r : NoteResult)
    (h : process_note_result powf note state t_cfg s_cfg c_cfg f_cfg = some (s', r)) :
    ∃ b j, calculate_base_score note t_cfg s_cfg = some (b, j) ∧
      process_after powf b j state note c_cfg f_cfg = (s', r) := by
  unfold process_note_result at h
  rcases hb : calculate_base_score note t_cfg s_cfg with _ | ⟨b, j⟩ <;> rw [hb] at h
  · exact absurd h (by simp)
  · exact ⟨b, j, rfl, by injection h⟩

/-! Claim theorems. -/

/-- The base-score algorithm in the specification's own order and words
(spec section 4.1), written independently of `calculate_base_score` for
comparison. -/
def spec_evaluate (note : NoteEvent) (t_cfg : TimingConfig)
    (s_cfg : SpatialConfig) : ℚ × Judgement :=
  if note.actual_entry = -1 then (0, Judgement.MISS)
  else if note.min_dist > s_cfg.target_radius then (0, Judgement.BAD)
  else if |note.actual_entry - note.target_start| ≤ t_cfg.window_perfect then
    (100, Judgement.PERFECT)
  else
    let ratio :=
      min ((|note.actual_entry - note.target_start| - t_cfg.window_perfect)
            / t_cfg.excess_max) 1
    if ratio ≥ 1 then (0, Judgement.BAD)
    else
      let score := 100 * (1 - ratio)
      if score ≤ 0 then (0, Judgement.BAD)
      else if score ≥ t_cfg.cut_great then (score, Judgement.GREAT)
      else (score, Judgement.GOOD)

/-- C1: for every note and every configuration (with the penalty
denominator nonzero, so that the claim's ratio is defined at all),
`calculate_base_score` returns exactly the value of the specification's
ordered algorithm: sentinel entry gives MISS, a miss distance beyond the
radius gives BAD regardless of timing, a timing offset within the perfect
window gives 100.0/PERFECT, and otherwise the capped excess ratio decides
between BAD, GREAT and GOOD as the spec orders it. -/
theorem calculate_base_score_follows_spec (note : NoteEvent) (t_cfg : TimingConfig)
    (s_cfg : SpatialConfig) (h : t_cfg.excess_max ≠ 0) :
    calculate_base_score note t_cfg s_cfg = some (spec_evaluate note t_cfg s_cfg) := by
  unfold calculate_base_score spec_evaluate get_excess_ratio
  simp only [if_neg h]
  split_ifs <;> rfl

/-- Witness for C1 at a concrete on-time note and the default configs. -/
theorem calculate_base_score_follows_spec_witness :
    calculate_base_score noteOnTime {} {} = some (spec_evaluate noteOnTime {} {}) :=
  calculate_base_score_follows_spec noteOnTime {} {} (by norm_num)

/-- C10: assuming a non-negative perfect window, a positive penalty
denominator and a great-cut in (0, 100], the base score determines and is
bounded by the judgement: exactly 100 for PERFECT, in [cut_great, 100)
for GREAT, in (0, cut_great) for GOOD, and 0 exactly for BAD or MISS
(so the `score ≤ 0` branch after the `ratio < 1` check never fires). -/
theorem base_score_determines_judgement (note : NoteEvent) (t_cfg : TimingConfig)
    (s_cfg : SpatialConfig) (hW : 0 ≤ t_cfg.window_perfect) (hE : 0 < t_cfg.excess_max)
    (hG0 : 0 < t_cfg.cut_great) (hG1 : t_cfg.cut_great ≤ 100)
    (score : ℚ) (j : Judgement)
    (h : calculate_base_score note t_cfg s_cfg = some (score, j)) :
    (j = Judgement.PERFECT → score = 100) ∧
    (j = Judgement.GREAT → t_cfg.cut_great ≤ score ∧ score < 100) ∧
    (j = Judgement.GOOD → 0 < score ∧ score < t_cfg.cut_great) ∧
    (score = 0 ↔ j = Judgement.BAD ∨ j = Judgement.MISS) := by
  unfold calculate_base_score get_excess_ratio at h
  simp only [if_neg hE.ne'] at h
  split_ifs at h with h1 h2 h3 h4 h5 h6 <;>
    (simp only [Option.some.injEq, Prod.mk.injEq] at h; obtain ⟨hs, hj⟩ := h;
     subst hs; subst hj)
  · exact ⟨fun hc => absurd hc (by decide), fun hc => absurd hc (by decide),
      fun hc => absurd hc (by decide), by simp⟩
  · exact ⟨fun hc => absurd hc (by decide), fun hc => absurd hc (by decide),
      fun hc => absurd hc (by decide), by simp⟩
  · exact ⟨fun _ => rfl, fun hc => absurd hc (by decide),
      fun hc => absurd hc (by decide),
      ⟨fun h0 => absurd h0 (by norm_num), fun hc => absurd hc (by decide)⟩⟩
  · exact ⟨fun hc => absurd hc (by decide), fun hc => absurd hc (by decide),
      fun hc => absurd hc (by decide), by simp⟩
  · exact ⟨fun hc => absurd hc (by decide), fun hc => absurd hc (by decide),
      fun hc => absurd hc (by decide), by simp⟩
  · -- GREAT branch
    push_neg at h3 h4 h5
    have he : 0 < (|note.actual_entry - note.target_start| - t_cfg.window_perfect)
        / t_cfg.excess_max := div_pos (by linarith) hE
    have hpr : 0 < min ((|note.actual_entry - note.target_start| - t_cfg.window_perfect)
        / t_cfg.excess_max) (1 : ℚ) := lt_min he (by norm_num)
    exact ⟨fun hc => absurd hc (by decide),
      fun _ => ⟨h6, by nlinarith⟩, fun hc => absurd hc (by decide),
      ⟨fun h0 => absurd h0 (by nlinarith), fun hc => absurd hc (by simp)⟩⟩
  · -- GOOD branch
    push_neg at h5 h6
    exact ⟨fun hc => absurd hc (by decide), fun hc => absurd hc (by decide),
      fun _ => ⟨h5, h6⟩,
      ⟨fun h0 => absurd h0 (by linarith), fun hc => absurd hc (by simp)⟩⟩

/-- Witness for C10 at a concrete on-time note with default configs. -/
theorem base_score_determines_judgement_witness :
    (Judgement.PERFECT = Judgement.PERFECT → (100 : ℚ) = 100) ∧
    (Judgement.PERFECT = Judgement.GREAT →
      ({} : TimingConfig).cut_great ≤ (100 : ℚ) ∧ (100 : ℚ) < 100) ∧
    (Judgement.PERFECT = Judgement.GOOD →
      (0 : ℚ) < 100 ∧ (100 : ℚ) < ({} : TimingConfig).cut_great) ∧
    ((100 : ℚ) = 0 ↔ Judgement.PERFECT = Judgement.BAD ∨
      Judgement.PERFECT = Judgement.MISS) :=
  base_score_determines_judgement noteOnTime {} {} (by norm_num) (by norm_num)
    (by norm_num) (by norm_num) 100 Judgement.PERFECT
    (by norm_num [calculate_base_score, noteOnTime])

/-- The state after a fresh session's first on-time PERFECT note. -/
def stateAfterFirstPerfect : PlayState :=
  { total_score := 101, max_possible_score := 101, current_combo := 1,
    max_combo := 1, fever_gauge := 10, fever_active_notes := 0 }

/-- The record of a fresh session's first on-time PERFECT note. -/
def resultFirstPerfect : NoteResult :=
  { judgement := Judgement.PERFECT, base_score := 100, final_score := 101,
    combo := 1, fever_active := false, fever_gauge := 10, fever_max := 100,
    fever_active_notes := 0, fever_duration := 10, total_score := 101,
    rank := "S", debug_in := some 0 }

/-- The state after a fresh session's first missed note. -/
def stateAfterFirstMiss : PlayState :=
  { total_score := 0, max_possible_score := 101, current_combo := 0,
    max_combo := 0, fever_gauge := 0, fever_active_notes := 0 }

/-- The record of a fresh session's first missed note. -/
def resultFirstMiss : NoteResult :=
  { judgement := Judgement.MISS, base_score := 0, final_score := 0,
    combo := 0, fever_active := false, fever_gauge := 0, fever_max := 100,
    fever_active_notes := 0, fever_duration := 10, total_score := 0,
    rank := "F", debug_in := none }

/-- The state after an on-time PERFECT note played on the last note of a
fever window (from `stateFeverOne`). -/
def stateAfterFeverOne : PlayState :=
  { total_score := 202, max_possible_score := 101, current_combo := 1,
    max_combo := 1, fever_gauge := 10, fever_active_notes := 0 }

/-- The record of an on-time PERFECT note played on the last note of a
fever window. -/
def resultFeverOne : NoteResult :=
  { judgement := Judgement.PERFECT, base_score := 100, final_score := 202,
    combo := 1, fever_active := false, fever_gauge := 10, fever_max := 100,
    fever_active_notes := 0, fever_duration := 10, total_score := 202,
    rank := "S", debug_in := some 0 }

/-- A play state in the middle of a full ten-note fever window. -/
def stateFeverTen : PlayState := { fever_active_notes := 10 }

/-- The state after a missed note during a full ten-note fever window:
nothing changes except the theoretical maximum (fever doubles it). -/
def stateAfterFeverTenMiss : PlayState :=
  { max_possible_score := 202, fever_active_notes := 10 }

/-- The record of a missed note during a full ten-note fever window. -/
def resultFeverTenMiss : NoteResult :=
  { judgement := Judgement.MISS, base_score := 0, final_score := 0,
    combo := 0, fever_active := true, fever_gauge := 0, fever_max := 100,
    fever_active_notes := 10, fever_duration := 10, total_score := 0,
    rank := "F", debug_in := none }

/-- Helper: a successful judgement call determines the whole result. -/
theorem process_note_result_some (powf : ℚ → ℚ → ℚ) (note : NoteEvent)
    (state : PlayState) (t_cfg : TimingConfig) (s_cfg : SpatialConfig)
    (c_cfg : ComboConfig) (f_cfg : FeverConfig) (b : ℚ) (j : Judgement)
    (hb : calculate_base_score note t_cfg s_cfg = some (b, j)) :
    process_note_result powf note state t_cfg s_cfg c_cfg f_cfg =
      some (process_after powf b j state note c_cfg f_cfg) := by
  rw [process_note_result, hb]

/-- Helper: the on-time, on-target note judges PERFECT with base 100. -/
theorem calc_noteOnTime :
    calculate_base_score noteOnTime {} {} = some (100, Judgement.PERFECT) := by
  unfold calculate_base_score
  norm_num [noteOnTime]

/-- Helper: the sentinel-entry note judges MISS with base 0. -/
theorem calc_noteNoInput :
    calculate_base_score noteNoInput {} {} = some (0, Judgement.MISS) := by
  unfold calculate_base_score
  norm_num [noteNoInput]

/-- Helper: full evaluation of the first processed note of a fresh
session when it is on time and on target (the spec's 101-point
scenario). -/
theorem process_noteOnTime_eval :
    process_note_result powf0 noteOnTime {} {} {} {} {} =
      some (stateAfterFirstPerfect, resultFirstPerfect) := by
  rw [process_note_result_some powf0 noteOnTime {} {} {} {} {} 100 Judgement.PERFECT
    calc_noteOnTime]
  unfold process_after
  norm_num [powf0, PlayState.is_fever_active, fill_amount, pyRound1, roundHalfEven,
    live_rank, min_def, noteOnTime, max_def, stateAfterFirstPerfect, resultFirstPerfect,
    show ¬(Judgement.PERFECT = Judgement.BAD ∨ Judgement.PERFECT = Judgement.MISS) from
      by decide]

/-- Helper: full evaluation of a missed note on a fresh session. -/
theorem process_noteNoInput_eval :
    process_note_result powf0 noteNoInput {} {} {} {} {} =
      some (stateAfterFirstMiss, resultFirstMiss) := by
  rw [process_note_result_some powf0 noteNoInput {} {} {} {} {} 0 Judgement.MISS
    calc_noteNoInput]
  unfold process_after
  norm_num [powf0, PlayState.is_fever_active, fill_amount, pyRound1, roundHalfEven,
    live_rank, min_def, noteNoInput, max_def, stateAfterFirstMiss, resultFirstMiss,
    show (Judgement.MISS = Judgement.BAD ∨ Judgement.MISS = Judgement.MISS) from
      by decide]

/-- Helper: full evaluation of an on-time PERFECT note played while the
fever window has exactly one note left: the multiplier applies (202
points), the counter drops to 0, and the gauge — frozen while fever was
active — immediately fills by 10 on this very note. -/
theorem process_feverOne_eval :
    process_note_result powf0 noteOnTime stateFeverOne {} {} {} {} =
      some (stateAfterFeverOne, resultFeverOne) := by
  rw [process_note_result_some powf0 noteOnTime stateFeverOne {} {} {} {} 100
    Judgement.PERFECT calc_noteOnTime]
  unfold process_after
  norm_num [powf0, PlayState.is_fever_active, fill_amount, pyRound1, roundHalfEven,
    live_rank, min_def, noteOnTime, stateFeverOne, max_def, stateAfterFeverOne, resultFeverOne,
    show ¬(Judgement.PERFECT = Judgement.BAD ∨ Judgement.PERFECT = Judgement.MISS) from
      by decide]

/-- Helper: full evaluation of a missed note during a full ten-note
fever window: state frozen apart from the doubled theoretical-maximum
growth; no fever credit is consumed. -/
theorem process_feverTenMiss_eval :
    process_note_result powf0 noteNoInput stateFeverTen {} {} {} {} =
      some (stateAfterFeverTenMiss, resultFeverTenMiss) := by
  rw [process_note_result_some powf0 noteNoInput stateFeverTen {} {} {} {} 0
    Judgement.MISS calc_noteNoInput]
  unfold process_after
  norm_num [powf0, PlayState.is_fever_active, fill_amount, pyRound1, roundHalfEven,
    live_rank, min_def, noteNoInput, stateFeverTen, max_def, stateAfterFeverTenMiss,
    resultFeverTenMiss,
    show (Judgement.MISS = Judgement.BAD ∨ Judgement.MISS = Judgement.MISS) from
      by decide]

/-- Helper: the two rank ladders compute the same string from the same
totals. -/
theorem live_rank_agrees_aux (total maxp : ℚ) :
    live_rank total maxp =
      calculate_final_rank { total_score := total, max_possible_score := maxp } := by
  unfold live_rank calculate_final_rank
  rcases le_or_lt maxp 0 with hm | hm
  · rw [if_neg (not_lt.mpr hm), if_pos hm]
    norm_num
  · rw [if_pos hm, if_neg (not_le.mpr hm)]

/-- C6: the rank computed inside `process_note_result` and the one
computed by `calculate_final_rank` are the same function of the
accumulated totals — equal on every pair, following the S/A/B/C/F
threshold ladder when the denominator is positive and both F when it is
not — so the per-note record's rank always equals the session-end rank of
the state it was computed from. -/
theorem live_rank_eq_final_rank :
    (∀ total maxp : ℚ, live_rank total maxp =
      calculate_final_rank { total_score := total, max_possible_score := maxp }) ∧
    (∀ (powf : ℚ → ℚ → ℚ) (note : NoteEvent) (state : PlayState)
        (t_cfg : TimingConfig) (s_cfg : SpatialConfig) (c_cfg : ComboConfig)
        (f_cfg : FeverConfig) (s' : PlayState) (r : NoteResult),
      process_note_result powf note state t_cfg s_cfg c_cfg f_cfg = some (s', r) →
      r.rank = calculate_final_rank s') ∧
    (∀ total maxp : ℚ, 0 < maxp →
      ((9:ℚ)/10 ≤ total / maxp → live_rank total maxp = "S") ∧
      ((8:ℚ)/10 ≤ total / maxp → total / maxp < (9:ℚ)/10 → live_rank total maxp = "A") ∧
      ((7:ℚ)/10 ≤ total / maxp → total / maxp < (8:ℚ)/10 → live_rank total maxp = "B") ∧
      ((6:ℚ)/10 ≤ total / maxp → total / maxp < (7:ℚ)/10 → live_rank total maxp = "C") ∧
      (total / maxp < (6:ℚ)/10 → live_rank total maxp = "F")) ∧
    (∀ total maxp : ℚ, maxp ≤ 0 →
      live_rank total maxp = "F" ∧
      calculate_final_rank { total_score := total, max_possible_score := maxp } = "F") := by
  refine ⟨live_rank_agrees_aux, ?_, ?_, ?_⟩
  · intro powf note state t_cfg s_cfg c_cfg f_cfg s' r h
    obtain ⟨b, j, hb, heq⟩ := process_note_result_eq_some powf note state t_cfg s_cfg
      c_cfg f_cfg s' r h
    have h1 : s' = (process_after powf b j state note c_cfg f_cfg).1 := by rw [heq]
    have h2 : r = (process_after powf b j state note c_cfg f_cfg).2 := by rw [heq]
    rw [h1, h2, process_after_rank_eq]
    exact live_rank_agrees_aux _ _
  · intro total maxp hm
    unfold live_rank
    rw [if_pos hm]
    refine ⟨fun h9 => by rw [if_pos h9],
      fun h8 h9 => by rw [if_neg (not_le.mpr h9), if_pos h8],
      fun h7 h8 => by rw [if_neg (not_le.mpr (lt_of_lt_of_le h8 (by norm_num))),
        if_neg (not_le.mpr h8), if_pos h7],
      fun h6 h7 => by rw [if_neg (not_le.mpr (lt_of_lt_of_le h7 (by norm_num))),
        if_neg (not_le.mpr (lt_of_lt_of_le h7 (by norm_num))), if_neg (not_le.mpr h7),
        if_pos h6],
      fun h6 => by rw [if_neg (not_le.mpr (lt_of_lt_of_le h6 (by norm_num))),
        if_neg (not_le.mpr (lt_of_lt_of_le h6 (by norm_num))),
        if_neg (not_le.mpr (lt_of_lt_of_le h6 (by norm_num))), if_neg (not_le.mpr h6)]⟩
  · intro total maxp hm
    constructor
    · unfold live_rank
      rw [if_neg (not_lt.mpr hm)]
      norm_num
    · unfold calculate_final_rank
      rw [if_pos hm]

/-- Witness for C6's record-rank component at a concrete run: a fresh
session's first on-time PERFECT note. -/
theorem live_rank_eq_final_rank_witness :
    resultFirstPerfect.rank = calculate_final_rank stateAfterFirstPerfect :=
  live_rank_eq_final_rank.2.1 powf0 noteOnTime {} {} {} {} {}
    stateAfterFirstPerfect resultFirstPerfect process_noteOnTime_eval

/-- C2 counterexample: fever is active before the note
(`fever_active_notes = 1 > 0`), yet processing an on-time PERFECT note
changes the gauge from 0 to 10 — the success branch decrements the
counter to 0 first, so the gauge-fill block then sees fever as inactive
and fills on this very note. -/
theorem fever_gauge_changes_while_fever_active :
    0 < stateFeverOne.fever_active_notes ∧
    process_note_result powf0 noteOnTime stateFeverOne {} {} {} {} =
      some (stateAfterFeverOne, resultFeverOne) ∧
    stateAfterFeverOne.fever_gauge ≠ stateFeverOne.fever_gauge := by
  refine ⟨by norm_num [stateFeverOne], process_feverOne_eval, ?_⟩
  norm_num [stateAfterFeverOne, stateFeverOne]

/-- C2 amended: when fever is active before the note, the gauge is left
unchanged unless this note is the last of the fever window (a non-failure
judgement with exactly one active note left); in that one case the
counter is consumed first and the gauge then fills with this note's
amount (with the usual activation check). -/
theorem fever_gauge_frozen_while_active (powf : ℚ → ℚ → ℚ) (note : NoteEvent)
    (state : PlayState) (t_cfg : TimingConfig) (s_cfg : SpatialConfig)
    (c_cfg : ComboConfig) (f_cfg : FeverConfig) (s' : PlayState) (r : NoteResult)
    (hact : 0 < state.fever_active_notes)
    (h : process_note_result powf note state t_cfg s_cfg c_cfg f_cfg = some (s', r)) :
    ((r.judgement = Judgement.BAD ∨ r.judgement = Judgement.MISS ∨
        1 < state.fever_active_notes) → s'.fever_gauge = state.fever_gauge) ∧
    ((¬(r.judgement = Judgement.BAD ∨ r.judgement = Judgement.MISS) ∧
        state.fever_active_notes = 1) →
      s'.fever_gauge =
        if f_cfg.gauge_max ≤ state.fever_gauge + fill_amount f_cfg r.judgement then 0
        else state.fever_gauge + fill_amount f_cfg r.judgement) := by
  obtain ⟨b, j, hb, heq⟩ := process_note_result_eq_some powf note state t_cfg s_cfg
    c_cfg f_cfg s' r h
  have hs : s' = (process_after powf b j state note c_cfg f_cfg).1 := by rw [heq]
  have hr : r.judgement = j := by
    rw [show r = (process_after powf b j state note c_cfg f_cfg).2 from by rw [heq]]
    exact process_after_judgement_eq powf b j state note c_cfg f_cfg
  rw [hs, hr]
  by_cases hfail : j = Judgement.BAD ∨ j = Judgement.MISS
  · constructor
    · intro _
      unfold process_after
      simp only [if_pos hfail, PlayState.is_fever_active, decide_eq_true_eq,
        Bool.not_eq_true', decide_eq_false_iff_not, not_lt]
      simp only [if_neg (by omega : ¬ state.fever_active_notes ≤ 0)]
    · intro hcon
      exact absurd hfail hcon.1
  · rcases (by omega : state.fever_active_notes = 1 ∨ 1 < state.fever_active_notes)
      with h1 | h1
    · constructor
      · intro hcon
        rcases hcon with hc | hc | hc
        · exact absurd (Or.inl hc) hfail
        · exact absurd (Or.inr hc) hfail
        · omega
      · intro _
        unfold process_after
        simp only [if_neg hfail, PlayState.is_fever_active, decide_eq_true_eq,
          Bool.not_eq_true', decide_eq_false_iff_not, not_lt]
        simp only [if_pos hact]
        simp only [h1]
        norm_num
        split_ifs with hg
        · rfl
        · rfl
    · constructor
      · intro _
        unfold process_after
        simp only [if_neg hfail, PlayState.is_fever_active, decide_eq_true_eq,
          Bool.not_eq_true', decide_eq_false_iff_not, not_lt]
        simp only [if_pos hact]
        simp only [if_neg (by omega : ¬ state.fever_active_notes - 1 ≤ 0)]
      · intro hcon
        omega

/-- Witness for C2 amended: a missed note during an active ten-note
fever window leaves the gauge (and the counter) unchanged. -/
theorem fever_gauge_frozen_while_active_witness :
    ((resultFeverTenMiss.judgement = Judgement.BAD ∨
        resultFeverTenMiss.judgement = Judgement.MISS ∨
        1 < stateFeverTen.fever_active_notes) →
      stateAfterFeverTenMiss.fever_gauge = stateFeverTen.fever_gauge) ∧
    ((¬(resultFeverTenMiss.judgement = Judgement.BAD ∨
        resultFeverTenMiss.judgement = Judgement.MISS) ∧
        stateFeverTen.fever_active_notes = 1) →
      stateAfterFeverTenMiss.fever_gauge =
        if ({} : FeverConfig).gauge_max ≤
            stateFeverTen.fever_gauge + fill_amount {} resultFeverTenMiss.judgement
          then 0
        else stateFeverTen.fever_gauge + fill_amount {} resultFeverTenMiss.judgement) :=
  fever_gauge_frozen_while_active powf0 noteNoInput stateFeverTen {} {} {} {}
    stateAfterFeverTenMiss resultFeverTenMiss (by norm_num [stateFeverTen])
    process_feverTenMiss_eval

/-- C4 counterexample: on the last note of a fever window the multiplier
does apply (the 101-point note is doubled to 202), fever was active
before the note, yet the produced record's fever-active flag is `false` —
the record reports the post-decrement state, not the pre-decrement one
the claim describes. -/
theorem fever_flag_mismatch_on_last_fever_note :
    0 < stateFeverOne.fever_active_notes ∧
    process_note_result powf0 noteOnTime stateFeverOne {} {} {} {} =
      some (stateAfterFeverOne, resultFeverOne) ∧
    resultFeverOne.fever_active = false ∧
    resultFeverOne.final_score = 202 := by
  refine ⟨by norm_num [stateFeverOne], process_feverOne_eval, rfl, rfl⟩

/-- C4 amended: the record's fever-active flag reports fever activity
after the note has been fully processed (after any decrement and any
edge-triggered activation): it is true exactly when the returned state's
`fever_active_notes` is positive. -/
theorem fever_flag_eq_post_activity (powf : ℚ → ℚ → ℚ) (note : NoteEvent)
    (state : PlayState) (t_cfg : TimingConfig) (s_cfg : SpatialConfig)
    (c_cfg : ComboConfig) (f_cfg : FeverConfig) (s' : PlayState) (r : NoteResult)
    (h : process_note_result powf note state t_cfg s_cfg c_cfg f_cfg = some (s', r)) :
    r.fever_active = s'.is_fever_active ∧
    (r.fever_active = true ↔ 0 < s'.fever_active_notes) := by
  obtain ⟨b, j, hb, heq⟩ := process_note_result_eq_some powf note state t_cfg s_cfg
    c_cfg f_cfg s' r h
  have hs : s' = (process_after powf b j state note c_cfg f_cfg).1 := by rw [heq]
  have hr : r = (process_after powf b j state note c_cfg f_cfg).2 := by rw [heq]
  rw [hs, hr, process_after_fever_active_eq]
  exact ⟨rfl, by simp [PlayState.is_fever_active]⟩

/-- Witness for C4 amended at a fresh session's first PERFECT note. -/
theorem fever_flag_eq_post_activity_witness :
    resultFirstPerfect.fever_active = stateAfterFirstPerfect.is_fever_active ∧
    (resultFirstPerfect.fever_active = true ↔
      0 < stateAfterFirstPerfect.fever_active_notes) :=
  fever_flag_eq_post_activity powf0 noteOnTime {} {} {} {} {}
    stateAfterFirstPerfect resultFirstPerfect process_noteOnTime_eval

/-- The fever-gauge invariant of a session state under the default
FeverConfig: gauge in [0, gauge_max) and a non-negative active-note
counter. -/
def FeverInv (s : PlayState) : Prop :=
  0 ≤ s.fever_gauge ∧ s.fever_gauge < 100 ∧ 0 ≤ s.fever_active_notes

/-- Helper: default fill amounts are non-negative. -/
theorem fill_amount_nonneg (j : Judgement) : 0 ≤ fill_amount {} j := by
  cases j <;> norm_num [fill_amount]

/-- Helper: failing judgements fill nothing by default. -/
theorem fill_amount_fail_eq_zero (j : Judgement)
    (hj : j = Judgement.BAD ∨ j = Judgement.MISS) : fill_amount {} j = 0 := by
  rcases hj with hj | hj <;> (subst hj; rfl)

/-- C5: with the default FeverConfig, the fresh state satisfies the fever
invariant and every processed note preserves it; the counter falls by at
most one per note; any fall is by exactly one and only on a non-BAD/MISS
judgement (a failed note during fever never consumes duration); and the
counter turns positive from zero only when this note's fill pushes the
gauge to `gauge_max`, at which point the gauge resets to 0 and the
counter becomes `fever_duration_notes` (10). -/
theorem fever_gauge_invariants :
    FeverInv ({} : PlayState) ∧
    ∀ (powf : ℚ → ℚ → ℚ) (note : NoteEvent) (state : PlayState)
      (t_cfg : TimingConfig) (s_cfg : SpatialConfig) (c_cfg : ComboConfig)
      (s' : PlayState) (r : NoteResult),
      FeverInv state →
      process_note_result powf note state t_cfg s_cfg c_cfg {} = some (s', r) →
      FeverInv s' ∧
      state.fever_active_notes - 1 ≤ s'.fever_active_notes ∧
      (s'.fever_active_notes < state.fever_active_notes →
        state.fever_active_notes - s'.fever_active_notes = 1 ∧
        ¬(r.judgement = Judgement.BAD ∨ r.judgement = Judgement.MISS)) ∧
      ((r.judgement = Judgement.BAD ∨ r.judgement = Judgement.MISS) →
        s'.fever_active_notes = state.fever_active_notes) ∧
      (state.fever_active_notes = 0 → 0 < s'.fever_active_notes →
        s'.fever_active_notes = 10 ∧ s'.fever_gauge = 0 ∧
        100 ≤ state.fever_gauge + fill_amount {} r.judgement) := by
  refine ⟨⟨by norm_num, by norm_num, by norm_num⟩, ?_⟩
  intro powf note state t_cfg s_cfg c_cfg s' r hInv h
  obtain ⟨b, j, hb, heq⟩ := process_note_result_eq_some powf note state t_cfg s_cfg
    c_cfg {} s' r h
  have hs : s' = (process_after powf b j state note c_cfg {}).1 := by rw [heq]
  have hr : r.judgement = j := by
    rw [show r = (process_after powf b j state note c_cfg {}).2 from by rw [heq]]
    exact process_after_judgement_eq powf b j state note c_cfg {}
  obtain ⟨hg0, hg1, hf0⟩ := hInv
  rw [hs, hr]
  unfold process_after FeverInv
  by_cases hfail : j = Judgement.BAD ∨ j = Judgement.MISS
  · have hfill := fill_amount_fail_eq_zero j hfail
    simp only [if_pos hfail, PlayState.is_fever_active, decide_eq_true_eq,
      Bool.not_eq_true', decide_eq_false_iff_not, not_lt, hfill, add_zero]
    try dsimp only
    by_cases hact : state.fever_active_notes ≤ 0
    · simp only [if_pos hact]
      rw [if_neg (show ¬ ((100:ℤ) ≤ state.fever_gauge) from by omega)]
      try dsimp only
      exact ⟨⟨by omega, by omega, by omega⟩, by omega,
        fun hlt => absurd hlt (by omega), fun _ => by first | trivial | omega,
        fun _ hpos => absurd hpos (by omega)⟩
    · simp only [if_neg hact]
      try dsimp only
      exact ⟨⟨by omega, by omega, by omega⟩, by omega,
        fun hlt => absurd hlt (by omega), fun _ => by first | trivial | omega,
        fun h0 => absurd h0 (by omega)⟩
  · simp only [if_neg hfail, PlayState.is_fever_active, decide_eq_true_eq,
      Bool.not_eq_true', decide_eq_false_iff_not, not_lt]
    try dsimp only
    have hfn := fill_amount_nonneg j
    by_cases hact : 0 < state.fever_active_notes
    · rw [if_pos hact]
      try dsimp only
      by_cases h1 : state.fever_active_notes - 1 ≤ 0
      · simp only [if_pos h1]
        try dsimp only
        split_ifs with hg
        · dsimp only
          exact ⟨⟨by omega, by omega, by omega⟩, by omega,
            fun hlt => absurd hlt (by omega), fun hc => absurd hc hfail,
            fun h0 => absurd h0 (by omega)⟩
        · dsimp only
          exact ⟨⟨by omega, by omega, by omega⟩, by omega,
            fun _ => ⟨by omega, hfail⟩, fun hc => absurd hc hfail,
            fun h0 => absurd h0 (by omega)⟩
      · simp only [if_neg h1]
        try dsimp only
        exact ⟨⟨by omega, by omega, by omega⟩, by omega,
          fun _ => ⟨by omega, hfail⟩, fun hc => absurd hc hfail,
          fun h0 => absurd h0 (by omega)⟩
    · rw [if_neg hact]
      try dsimp only
      simp only [if_pos (show state.fever_active_notes ≤ 0 from by omega)]
      try dsimp only
      split_ifs with hg
      · dsimp only
        exact ⟨⟨by omega, by omega, by omega⟩, by omega,
          fun hlt => absurd hlt (by omega), fun hc => absurd hc hfail,
          fun _ _ => ⟨by omega, by omega, by omega⟩⟩
      · dsimp only
        exact ⟨⟨by omega, by omega, by omega⟩, by omega,
          fun hlt => absurd hlt (by omega), fun hc => absurd hc hfail,
          fun _ hpos => absurd hpos (by omega)⟩

/-- Witness for C5's step component: a missed note during a full fever
window (counter 10) leaves the invariant intact and the counter
unchanged. -/
theorem fever_gauge_invariants_witness :
    FeverInv stateAfterFeverTenMiss ∧
    stateFeverTen.fever_active_notes - 1 ≤ stateAfterFeverTenMiss.fever_active_notes ∧
    (stateAfterFeverTenMiss.fever_active_notes < stateFeverTen.fever_active_notes →
      stateFeverTen.fever_active_notes - stateAfterFeverTenMiss.fever_active_notes = 1 ∧
      ¬(resultFeverTenMiss.judgement = Judgement.BAD ∨
        resultFeverTenMiss.judgement = Judgement.MISS)) ∧
    ((resultFeverTenMiss.judgement = Judgement.BAD ∨
        resultFeverTenMiss.judgement = Judgement.MISS) →
      stateAfterFeverTenMiss.fever_active_notes = stateFeverTen.fever_active_notes) ∧
    (stateFeverTen.fever_active_notes = 0 →
      0 < stateAfterFeverTenMiss.fever_active_notes →
      stateAfterFeverTenMiss.fever_active_notes = 10 ∧
      stateAfterFeverTenMiss.fever_gauge = 0 ∧
      100 ≤ stateFeverTen.fever_gauge +
        fill_amount {} resultFeverTenMiss.judgement) :=
  fever_gauge_invariants.2 powf0 noteNoInput stateFeverTen {} {} {}
    stateAfterFeverTenMiss resultFeverTenMiss
    ⟨by norm_num [stateFeverTen], by norm_num [stateFeverTen],
      by norm_num [stateFeverTen]⟩
    process_feverTenMiss_eval

/-- Helper: how one processed note changes `max_combo`. -/
theorem process_after_max_combo (powf : ℚ → ℚ → ℚ) (b : ℚ) (j : Judgement)
    (st : PlayState) (note : NoteEvent) (c_cfg : ComboConfig) (f_cfg : FeverConfig) :
    (process_after powf b j st note c_cfg f_cfg).1.max_combo =
      if j = Judgement.BAD ∨ j = Judgement.MISS then st.max_combo
      else max st.max_combo (st.current_combo + 1) := by
  unfold process_after
  by_cases hfail : j = Judgement.BAD ∨ j = Judgement.MISS
  · simp only [if_pos hfail]
    try dsimp only
    split_ifs <;> rfl
  · simp only [if_neg hfail]
    try dsimp only
    split_ifs <;> rfl

/-- Helper: how one processed note changes `current_combo`. -/
theorem process_after_current_combo (powf : ℚ → ℚ → ℚ) (b : ℚ) (j : Judgement)
    (st : PlayState) (note : NoteEvent) (c_cfg : ComboConfig) (f_cfg : FeverConfig) :
    (process_after powf b j st note c_cfg f_cfg).1.current_combo =
      if j = Judgement.BAD ∨ j = Judgement.MISS then 0
      else st.current_combo + 1 := by
  unfold process_after
  by_cases hfail : j = Judgement.BAD ∨ j = Judgement.MISS
  · simp only [if_pos hfail]
    try dsimp only
    split_ifs <;> rfl
  · simp only [if_neg hfail]
    try dsimp only
    split_ifs <;> rfl

/-- C7: each processed note grows `max_possible_score` by exactly
`(100 + min(100·growth_a·simCombo^growth_p, 100·bonus_cap_multiplier)) ·
(score_multiplier if fever is currently active else 1)`, with `simCombo`
being `max_combo + 1` on a BAD/MISS note and the (incremented)
`current_combo` otherwise; and — whenever the configuration's factors are
non-negative, the multiplier is at least one and the power is
non-negative on non-negative bases, as the defaults are — the increment
is at least 100, so `max_possible_score` is strictly positive after the
first processed note. -/
theorem max_possible_score_growth (powf : ℚ → ℚ → ℚ) (note : NoteEvent)
    (state : PlayState) (t_cfg : TimingConfig) (s_cfg : SpatialConfig)
    (c_cfg : ComboConfig) (f_cfg : FeverConfig) (s' : PlayState) (r : NoteResult)
    (h : process_note_result powf note state t_cfg s_cfg c_cfg f_cfg = some (s', r)) :
    s'.max_possible_score = state.max_possible_score +
      (100 + min (100 * c_cfg.growth_a *
          powf ((if r.judgement = Judgement.BAD ∨ r.judgement = Judgement.MISS then
            s'.max_combo + 1 else s'.current_combo : ℤ) : ℚ) c_cfg.growth_p)
        (100 * c_cfg.bonus_cap_multiplier)) *
      (if 0 < s'.fever_active_notes then f_cfg.score_multiplier else 1) ∧
    (0 ≤ c_cfg.growth_a → 0 ≤ c_cfg.bonus_cap_multiplier →
      1 ≤ f_cfg.score_multiplier →
      (∀ x : ℚ, 0 ≤ x → 0 ≤ powf x c_cfg.growth_p) →
      0 ≤ state.current_combo → 0 ≤ state.max_combo →
      100 ≤ s'.max_possible_score - state.max_possible_score ∧
      (0 ≤ state.max_possible_score → 0 < s'.max_possible_score)) := by
  obtain ⟨b, j, hb, heq⟩ := process_note_result_eq_some powf note state t_cfg s_cfg
    c_cfg f_cfg s' r h
  have hs : s' = (process_after powf b j state note c_cfg f_cfg).1 := by rw [heq]
  have hr : r.judgement = j := by
    rw [show r = (process_after powf b j state note c_cfg f_cfg).2 from by rw [heq]]
    exact process_after_judgement_eq powf b j state note c_cfg f_cfg
  have hdelta : s'.max_possible_score = state.max_possible_score +
      (100 + min (100 * c_cfg.growth_a *
          powf ((if r.judgement = Judgement.BAD ∨ r.judgement = Judgement.MISS then
            s'.max_combo + 1 else s'.current_combo : ℤ) : ℚ) c_cfg.growth_p)
        (100 * c_cfg.bonus_cap_multiplier)) *
      (if 0 < s'.fever_active_notes then f_cfg.score_multiplier else 1) := by
    rw [hs, hr]
    unfold process_after
    by_cases hfail : j = Judgement.BAD ∨ j = Judgement.MISS
    · simp only [if_pos hfail, PlayState.is_fever_active, decide_eq_true_eq,
        Bool.not_eq_true', decide_eq_false_iff_not, not_lt, mul_assoc]
      try dsimp only
      split_ifs <;> (try dsimp only) <;> ring
    · simp only [if_neg hfail, PlayState.is_fever_active, decide_eq_true_eq,
        Bool.not_eq_true', decide_eq_false_iff_not, not_lt, mul_assoc]
      try dsimp only
      split_ifs <;> (try dsimp only) <;> ring
  refine ⟨hdelta, fun ha hcap hmult hpow hcc hmc => ?_⟩
  have hcombo := process_after_current_combo powf b j state note c_cfg f_cfg
  have hmaxc := process_after_max_combo powf b j state note c_cfg f_cfg
  rw [← hs] at hcombo hmaxc
  set simC : ℤ := (if r.judgement = Judgement.BAD ∨ r.judgement = Judgement.MISS then
    s'.max_combo + 1 else s'.current_combo) with hsimC
  have hsimCZ : (0 : ℤ) ≤ simC := by
    rw [hsimC, hr]
    by_cases hfail : j = Judgement.BAD ∨ j = Judgement.MISS
    · rw [if_pos hfail, hmaxc, if_pos hfail]
      omega
    · rw [if_neg hfail, hcombo, if_neg hfail]
      omega
  have hsimC0 : (0 : ℚ) ≤ (simC : ℚ) := by exact_mod_cast hsimCZ
  have hmin : 0 ≤ min (100 * c_cfg.growth_a * powf (simC : ℚ) c_cfg.growth_p)
      (100 * c_cfg.bonus_cap_multiplier) := by
    refine le_min ?_ (mul_nonneg (by norm_num) hcap)
    exact mul_nonneg (mul_nonneg (by norm_num) ha) (hpow (simC : ℚ) hsimC0)
  have hm1 : (1 : ℚ) ≤
      (if 0 < s'.fever_active_notes then f_cfg.score_multiplier else 1) := by
    split_ifs
    · exact hmult
    · exact le_refl 1
  constructor
  · rw [hdelta]
    nlinarith [hmin, hm1]
  · intro h0
    rw [hdelta]
    nlinarith [hmin, hm1]

/-- Witness for C7 at a fresh session's first missed note with default
configs: the increment is exactly 101 and the total becomes strictly
positive. -/
theorem max_possible_score_growth_witness :
    (stateAfterFirstMiss.max_possible_score = ({} : PlayState).max_possible_score +
      (100 + min (100 * ({} : ComboConfig).growth_a *
          powf0 ((if resultFirstMiss.judgement = Judgement.BAD ∨
              resultFirstMiss.judgement = Judgement.MISS then
              stateAfterFirstMiss.max_combo + 1
            else stateAfterFirstMiss.current_combo : ℤ) : ℚ)
          ({} : ComboConfig).growth_p)
        (100 * ({} : ComboConfig).bonus_cap_multiplier)) *
      (if 0 < stateAfterFirstMiss.fever_active_notes then
        ({} : FeverConfig).score_multiplier else 1)) ∧
    100 ≤ stateAfterFirstMiss.max_possible_score -
      ({} : PlayState).max_possible_score ∧
    (0 ≤ ({} : PlayState).max_possible_score →
      0 < stateAfterFirstMiss.max_possible_score) :=
  ⟨(max_possible_score_growth powf0 noteNoInput {} {} {} {} {} stateAfterFirstMiss
      resultFirstMiss process_noteNoInput_eval).1,
    (max_possible_score_growth powf0 noteNoInput {} {} {} {} {} stateAfterFirstMiss
      resultFirstMiss process_noteNoInput_eval).2
      (by norm_num) (by norm_num) (by norm_num)
      (fun x hx => by simpa [powf0] using hx) (by norm_num) (by norm_num)⟩

/-- C8: on every non-failure judgement the combo is incremented first and
the note's score delta is `(base + min(base·growth_a·combo^growth_p,
base·bonus_cap_multiplier))`, computed with the post-increment combo
(times the fever multiplier when fever was active before the note); in
particular, a fresh session's first on-time PERFECT note with default
configs and `1^1.2 = 1` yields combo 1, bonus ratio 1/100, bonus 1, and
final score exactly 101. -/
theorem combo_bonus_uses_post_increment_combo :
    (∀ (powf : ℚ → ℚ → ℚ) (note : NoteEvent) (state : PlayState)
        (t_cfg : TimingConfig) (s_cfg : SpatialConfig) (c_cfg : ComboConfig)
        (f_cfg : FeverConfig) (s' : PlayState) (r : NoteResult) (b : ℚ)
        (j : Judgement),
      calculate_base_score note t_cfg s_cfg = some (b, j) →
      ¬(j = Judgement.BAD ∨ j = Judgement.MISS) →
      process_note_result powf note state t_cfg s_cfg c_cfg f_cfg = some (s', r) →
      s'.current_combo = state.current_combo + 1 ∧
      s'.total_score - state.total_score =
        (b + min (b * c_cfg.growth_a *
            powf ((state.current_combo + 1 : ℤ) : ℚ) c_cfg.growth_p)
          (b * c_cfg.bonus_cap_multiplier)) *
        (if 0 < state.fever_active_notes then f_cfg.score_multiplier else 1)) ∧
    (process_note_result powf0 noteOnTime {} {} {} {} {} =
        some (stateAfterFirstPerfect, resultFirstPerfect) ∧
      resultFirstPerfect.combo = 1 ∧
      ({} : ComboConfig).growth_a * powf0 1 ({} : ComboConfig).growth_p = 1/100 ∧
      (100 : ℚ) * (({} : ComboConfig).growth_a * powf0 1 ({} : ComboConfig).growth_p) = 1 ∧
      resultFirstPerfect.final_score = 101 ∧
      stateAfterFirstPerfect.total_score = 101) := by
  constructor
  · intro powf note state t_cfg s_cfg c_cfg f_cfg s' r b j hb hj h
    obtain ⟨b', j', hb', heq⟩ := process_note_result_eq_some powf note state t_cfg
      s_cfg c_cfg f_cfg s' r h
    rw [hb] at hb'
    obtain ⟨hbb, hjj⟩ : b = b' ∧ j = j' := by
      simpa [Option.some.injEq, Prod.mk.injEq] using hb'
    subst hbb; subst hjj
    have hs : s' = (process_after powf b j state note c_cfg f_cfg).1 := by rw [heq]
    constructor
    · rw [hs, process_after_current_combo, if_neg hj]
    · rw [hs]
      unfold process_after
      simp only [if_neg hj, PlayState.is_fever_active, decide_eq_true_eq,
        Bool.not_eq_true', decide_eq_false_iff_not, not_lt, mul_assoc]
      try dsimp only
      split_ifs <;> (try dsimp only) <;> ring
  · exact ⟨process_noteOnTime_eval, rfl, by norm_num [powf0], by norm_num [powf0],
      rfl, rfl⟩

/-- Witness for C8's general component at a fresh session's first
PERFECT note. -/
theorem combo_bonus_uses_post_increment_combo_witness :
    stateAfterFirstPerfect.current_combo = ({} : PlayState).current_combo + 1 ∧
    stateAfterFirstPerfect.total_score - ({} : PlayState).total_score =
      (100 + min (100 * ({} : ComboConfig).growth_a *
          powf0 ((({} : PlayState).current_combo + 1 : ℤ) : ℚ)
            ({} : ComboConfig).growth_p)
        (100 * ({} : ComboConfig).bonus_cap_multiplier)) *
      (if 0 < ({} : PlayState).fever_active_notes then
        ({} : FeverConfig).score_multiplier else 1) :=
  combo_bonus_uses_post_increment_combo.1 powf0 noteOnTime {} {} {} {} {}
    stateAfterFirstPerfect resultFirstPerfect 100 Judgement.PERFECT
    calc_noteOnTime (by decide) process_noteOnTime_eval

/-- A session whose schedule cursor has passed the last of the 60 notes:
the game-over summary has already been emitted. -/
def sessOver : Session := { state := {}, note_index := 60, current_target_time := 0 }

/-- A mid-session connection with accumulated state, about to restart. -/
def sessDirty : Session :=
  { state := stateAfterFirstPerfect, note_index := 5, current_target_time := 1234 }

/-- C3: after the schedule is exhausted (cursor 60 of 60), `receive` has
no terminal-state guard: a further `miss` event is still judged against
the stale target, mutates the session state (`max_possible_score` grows
from 0 to 101), emits a fresh per-note result record and a second
game-over summary, and advances the cursor to 61. The restart half of the
claim does hold: a `game_start` on a dirty session allocates a fully
fresh state with cursor 0 and no carry-over. -/
theorem post_game_over_event_still_processed :
    receive powf0 0 sessOver (InMsg.miss none) =
      ({ state := stateAfterFirstMiss, note_index := 61, current_target_time := 0 },
        [OutMsg.result resultFirstMiss, OutMsg.game_over 0 101 "F"]) ∧
    stateAfterFirstMiss ≠ sessOver.state ∧
    receive powf0 7 sessDirty InMsg.game_start =
      ({ state := {}, note_index := 0, current_target_time := 216 },
        [OutMsg.game_start_msg, OutMsg.next_target (some 216)]) := by
  refine ⟨?_, ?_, ?_⟩
  · have h1 : process_note_result powf0
        ({ note_type := NoteType.TAP, target_start := 0, target_x := 100,
           target_y := 100, actual_entry := -1, min_dist := 9999 } : NoteEvent)
        {} {} {} {} {} = some (stateAfterFirstMiss, resultFirstMiss) :=
      process_noteNoInput_eval
    unfold receive receiveNoteEvent sessOver
    try dsimp only
    rw [show (Option.getD (none : Option ℚ) 9999) = 9999 from rfl]
    rw [h1]
    try dsimp only
    norm_num [get_next_note_time, NOTE_INTERVALS, pyRound1, roundHalfEven,
      calculate_final_rank, stateAfterFirstMiss]
  · norm_num [stateAfterFirstMiss, sessOver]
  · unfold receive sessDirty
    try dsimp only
    norm_num [get_next_note_time, NOTE_INTERVALS]

/-- A play state whose combo counter has gone negative: unreachable in
normal play, but a finite well-typed input to the engine. -/
def stateNegCombo : PlayState := { current_combo := -2 }

/-- Helper: when both power sites' bases lie in float `**`'s real
domain, the checked engine agrees with the total model. -/
theorem process_after_checked_eq_some (powf : ℚ → ℚ → ℚ) (b : ℚ) (j : Judgement)
    (st : PlayState) (note : NoteEvent) (c_cfg : ComboConfig) (f_cfg : FeverConfig)
    (h1 : float_pow_defined ((st.current_combo + 1 : ℤ) : ℚ) c_cfg.growth_p)
    (h2 : float_pow_defined ((st.max_combo + 1 : ℤ) : ℚ) c_cfg.growth_p) :
    process_after_checked powf b j st note c_cfg f_cfg =
      some (process_after powf b j st note c_cfg f_cfg) := by
  unfold process_after_checked process_after pyPow
  by_cases hfail : j = Judgement.BAD ∨ j = Judgement.MISS
  · simp only [if_pos hfail]
    try dsimp only
    split_ifs <;> (try dsimp only at *) <;> (try split_ifs) <;>
      (try dsimp only at *) <;>
      first
        | rfl
        | contradiction
        | exact absurd h1 (by assumption)
        | exact absurd h2 (by assumption)
  · simp only [if_neg hfail]
    try dsimp only
    split_ifs <;> (try dsimp only at *) <;> (try split_ifs) <;>
      (try dsimp only at *) <;>
      first
        | rfl
        | contradiction
        | exact absurd h1 (by assumption)
        | exact absurd h2 (by assumption)

/-- C9 counterexample: two finite-input raise paths. With
`excess_max = 0` (a finite number) and a late but in-radius input, the
division in `get_excess_ratio` runs with a zero divisor, so
`calculate_base_score` (and hence `process_note_result`) raises instead
of returning. And with the default configs and a negative combo counter,
a PERFECT note computes `(-1) ** 1.2`, which leaves float `**`'s real
domain (a complex result, so the `min` applied to it raises
`TypeError`): the engine with the power's raise paths kept returns
`none` there as well. -/
theorem engine_raises_counterexamples :
    calculate_base_score noteLate tCfgZeroExcess {} = none ∧
    process_note_result powf0 noteLate {} tCfgZeroExcess {} {} {} = none ∧
    process_note_result_checked powf0 noteOnTime stateNegCombo {} {} {} {} = none := by
  have h : calculate_base_score noteLate tCfgZeroExcess {} = none := by
    unfold calculate_base_score get_excess_ratio
    norm_num [noteLate, tCfgZeroExcess]
  refine ⟨h, by simp [process_note_result, h], ?_⟩
  rw [process_note_result_checked, calc_noteOnTime]
  unfold process_after_checked pyPow
  norm_num [stateNegCombo, float_pow_defined,
    show ¬(Judgement.PERFECT = Judgement.BAD ∨ Judgement.PERFECT = Judgement.MISS) from
      by decide]

/-- C9 amended: `calculate_base_score` (which contains no power) is
total whenever the timing config's `excess_max` is nonzero, and under
that same condition `process_note_result` returns a value on every state
whose combo counters are non-negative — as they are in every reachable
state — even with the raise paths of `**` kept: the checked engine
returns a value and agrees with the total model. Outside that domain the
power itself can raise (see the counterexample). -/
theorem engine_total_on_nonneg_combo_states (note : NoteEvent) (t_cfg : TimingConfig)
    (s_cfg : SpatialConfig) (h : t_cfg.excess_max ≠ 0) :
    (∃ p, calculate_base_score note t_cfg s_cfg = some p) ∧
    ∀ (powf : ℚ → ℚ → ℚ) (state : PlayState) (c_cfg : ComboConfig)
      (f_cfg : FeverConfig), 0 ≤ state.current_combo → 0 ≤ state.max_combo →
      ∃ q, process_note_result_checked powf note state t_cfg s_cfg c_cfg f_cfg = some q ∧
        process_note_result powf note state t_cfg s_cfg c_cfg f_cfg = some q := by
  have hc : ∃ p, calculate_base_score note t_cfg s_cfg = some p := by
    unfold calculate_base_score get_excess_ratio
    simp only [if_neg h]
    split_ifs <;> exact ⟨_, rfl⟩
  refine ⟨hc, fun powf state c_cfg f_cfg hcc hmc => ?_⟩
  obtain ⟨⟨b, j⟩, hp⟩ := hc
  have h1 : float_pow_defined ((state.current_combo + 1 : ℤ) : ℚ) c_cfg.growth_p := by
    unfold float_pow_defined
    exact Or.inl (by exact_mod_cast (show (0:ℤ) < state.current_combo + 1 from by omega))
  have h2 : float_pow_defined ((state.max_combo + 1 : ℤ) : ℚ) c_cfg.growth_p := by
    unfold float_pow_defined
    exact Or.inl (by exact_mod_cast (show (0:ℤ) < state.max_combo + 1 from by omega))
  refine ⟨process_after powf b j state note c_cfg f_cfg, ?_, ?_⟩
  · rw [process_note_result_checked, hp]
    exact process_after_checked_eq_some powf b j state note c_cfg f_cfg h1 h2
  · rw [process_note_result, hp]

/-- Witness for C9 amended, at the default timing config, an on-time
note and a fresh state. -/
theorem engine_total_on_nonneg_combo_states_witness :
    (∃ p, calculate_base_score noteOnTime {} {} = some p) ∧
    ∃ q, process_note_result_checked powf0 noteOnTime {} {} {} {} {} = some q ∧
      process_note_result powf0 noteOnTime {} {} {} {} {} = some q :=
  ⟨(engine_total_on_nonneg_combo_states noteOnTime {} {} (by norm_num)).1,
    (engine_total_on_nonneg_combo_states noteOnTime {} {} (by norm_num)).2 powf0 {} {} {}
      (by norm_num) (by norm_num)⟩

end Sondream
